import Mathlib

/-!
Shallow embedding of the Trendyol vault-couchbase-database-plugin core
(`couchbase/connection_producer.go`, `couchbase/couchbase.go`,
`couchbase/util.go`).

Modelling conventions:
* Outbound calls to the cluster (connect, authenticate, open-bucket,
  upsert-user, remove-user, close) are recorded in an event trace; their
  outcomes are fixed by an `Env` value standing for the external world.
* Go methods that mutate the receiver are state-passing functions
  returning the updated state alongside the result and the trace.
* Go strings are Lean `String`s; Go byte-slice truncation `s[:n]` is
  modelled at character granularity by `strTake`.
* `json.Unmarshal` into `CbStatement` is Go library code; a creation
  statement is modelled by its decoding outcome (`Stmt`): either
  malformed JSON or a well-formed object carrying a role list.
-/

deriving instance DecidableEq for Except

namespace CouchbasePlugin

/-- Two constants of `couchbase.go`: the plugin type name and the fixed
authentication domain used for all identity operations. -/
def couchbaseTypeName : String := "couchbase"

/-- Fixed authentication domain (`authDomain = "local"` in `couchbase.go`). -/
def authDomain : String := "local"

/-- Opaque handle to a live `gocb.Cluster`, identified by a numeric id the
external world hands out on connect. -/
structure Cluster where
  id : Nat
deriving DecidableEq

/-- Handle returned by `cluster.Manager(username, password)`: scoped to the
cluster it was derived from and the admin credentials. -/
structure ClusterManager where
  clusterId : Nat
  username : String
  password : String
deriving DecidableEq

/-- Errors surfaced by the plugin, one constructor per distinct Go error
path (empty-field validation, connutil.ErrNotInitialized, the three
connection steps, dbutil.ErrEmptyCreationStatement, the two statement
checks of upsertUser, the administrative calls, and the deliberate
root-rotation rejection). `verifyFailed` is the errwrap wrapping that
`Init` puts around a verification failure. -/
inductive Err where
  | emptyConnectionString
  | emptyUsername
  | emptyPassword
  | notInitialized
  | connectFailed
  | authFailed
  | openBucketFailed (bucket : String)
  | verifyFailed (e : Err)
  | emptyCreationStatement
  | statementParse
  | noRole
  | upsertFailed
  | removeFailed
  | closeFailed
  | genUsernameFailed
  | genPasswordFailed
  | rootRotationUnsupported
deriving DecidableEq

/-- Role entry of the statement model (`util.go`): role name and bucket
name. -/
structure CbRole where
  Role : String
  BucketName : String
deriving DecidableEq

/-- List of roles, as in `type CbRoles []CbRole`. -/
abbrev CbRoles := List CbRole

/-- Statement model for couchbase (`util.go`): a single `roles` field. -/
structure CbStatement where
  Roles : CbRoles
deriving DecidableEq

/-- Creation statement as seen through `json.Unmarshal` into `CbStatement`
(`util.go`): either malformed JSON (Unmarshal errors) or well-formed,
decoding to a list of roles. -/
inductive Stmt where
  | malformed (raw : String)
  | wellFormed (roles : CbRoles)
deriving DecidableEq

/-- Role entry of the gocb user-settings payload (`gocb.UserRole`). -/
structure UserRole where
  Role : String
  BucketName : String
deriving DecidableEq

/-- Payload of the administrative upsert call (`gocb.UserSettings`). -/
structure UserSettings where
  Name : String
  Password : String
  Roles : List UserRole
deriving DecidableEq

/-- Direct translation of `CbRoles.ToGocbUserRoles` (`util.go`): the Go
loop appends, for each role in order, a `gocb.UserRole` with the same
`Role` and `BucketName`. -/
def CbRoles.ToGocbUserRoles (roles : CbRoles) : List UserRole :=
  roles.map fun r => { Role := r.Role, BucketName := r.BucketName }

/-- Outcome of `json.Unmarshal([]byte(creationStatement), &cbStatement)`
on a modelled statement. -/
def jsonUnmarshalCbStatement : Stmt → Except String CbStatement
  | .malformed raw => .error raw
  | .wellFormed roles => .ok { Roles := roles }

/-- Trace of outbound calls and effectful credential-generation steps. -/
inductive Event where
  | connect (connectionString : String)
  | authenticate (username password : String)
  | openBucket (bucket : String)
  | generateUsername
  | generatePassword
  | upsertUser (domain username : String) (settings : UserSettings)
  | removeUser (domain username : String)
  | closeCluster
deriving DecidableEq

/-- True exactly on administrative upsert events. -/
def Event.isUpsert : Event → Bool
  | .upsertUser _ _ _ => true
  | _ => false

/-- Configuration map handed to `Init`, restricted to the four
mapstructure-decoded fields; `none` stands for an absent key. -/
structure Conf where
  connection_string : Option String := none
  username : Option String := none
  password : Option String := none
  bucket : Option String := none
deriving DecidableEq

/-- State of `couchbaseConnectionProducer` (`connection_producer.go`).
The Go field `Type` is renamed `typeName` (`Type` is a Lean keyword);
`cluster` and `clusterManager` are the cached handles, `nil` as `none`. -/
structure couchbaseConnectionProducer where
  ConnectionString : String := ""
  Username : String := ""
  Password : String := ""
  Bucket : String := ""
  typeName : String := ""
  Initialized : Bool := false
  RawConfig : Conf := {}
  cluster : Option Cluster := none
  clusterManager : Option ClusterManager := none
deriving DecidableEq

/-- External-world outcomes for one operation: results of `gocb.Connect`,
`Authenticate`, `OpenBucket`, `cluster.Close`, `UpsertUser`, `RemoveUser`,
and of the SDK credential generators (the random alphanumeric draw and
the Unix timestamp used by `GenerateUsername`, and `GeneratePassword`). -/
structure Env where
  connectRes : Except String Cluster := .ok { id := 0 }
  authOk : Bool := true
  openBucketOk : Bool := true
  closeOk : Bool := true
  upsertOk : Bool := true
  removeOk : Bool := true
  randomUUID : Except String String := .ok ""
  nowUnix : String := ""
  genPasswordRes : Except String String := .ok ""

/-- Model of `mapstructure.WeakDecode(conf, c)`: each field present in the
map overrides the corresponding struct field; absent fields are kept.
(Decode type errors cannot arise for this well-typed `Conf` model.) -/
def weakDecode (conf : Conf) (c : couchbaseConnectionProducer) :
    couchbaseConnectionProducer :=
  { c with
    ConnectionString := conf.connection_string.getD c.ConnectionString
    Username := conf.username.getD c.Username
    Password := conf.password.getD c.Password
    Bucket := conf.bucket.getD c.Bucket }

/-- Translation of `Connection` (`connection_producer.go:68`): fails with
`ErrNotInitialized` when not initialized; otherwise connects (a fresh
connection attempt on every call — the cached `cluster` field is never
consulted), authenticates, opens the configured bucket, derives the
cluster manager, and caches both handles. Any failing step aborts with
the original state retained. -/
def Connection (env : Env) (c : couchbaseConnectionProducer) :
    Except Err Cluster × couchbaseConnectionProducer × List Event :=
  if !c.Initialized then
    (.error .notInitialized, c, [])
  else
    match env.connectRes with
    | .error _ => (.error .connectFailed, c, [.connect c.ConnectionString])
    | .ok cluster =>
      if !env.authOk then
        (.error .authFailed, c,
          [.connect c.ConnectionString,
           .authenticate c.Username c.Password])
      else if !env.openBucketOk then
        (.error (.openBucketFailed c.Bucket), c,
          [.connect c.ConnectionString,
           .authenticate c.Username c.Password,
           .openBucket c.Bucket])
      else
        let clusterManager : ClusterManager :=
          { clusterId := cluster.id
            username := c.Username
            password := c.Password }
        (.ok cluster,
          { c with cluster := some cluster
                   clusterManager := some clusterManager },
          [.connect c.ConnectionString,
           .authenticate c.Username c.Password,
           .openBucket c.Bucket])

/-- Translation of `Init` (`connection_producer.go:36`): stores the raw
config, weak-decodes it over the receiver, rejects an empty connection
string, username or password, then sets `Initialized := true`; when
`verifyConnection` is requested it performs a full `Connection` and wraps
any failure (`error verifying connection`), returning the conf on
success. -/
def Init (env : Env) (c : couchbaseConnectionProducer) (conf : Conf)
    (verifyConnection : Bool) :
    Except Err Conf × couchbaseConnectionProducer × List Event :=
  let c := weakDecode conf { c with RawConfig := conf }
  if c.ConnectionString.length = 0 then
    (.error .emptyConnectionString, c, [])
  else if c.Username.length = 0 then
    (.error .emptyUsername, c, [])
  else if c.Password.length = 0 then
    (.error .emptyPassword, c, [])
  else
    let c := { c with Initialized := true }
    if verifyConnection then
      match Connection env c with
      | (.error e, c2, evs) => (.error (.verifyFailed e), c2, evs)
      | (.ok _, c2, evs) => (.ok conf, c2, evs)
    else
      (.ok conf, c, [])

/-- Translation of `Close` (`connection_producer.go:98`): when a cluster
is cached, closes it and returns early on failure (the cached reference
is then left as it was); otherwise — and after a successful close — nils
the cached cluster reference and returns ok. -/
def Close (env : Env) (c : couchbaseConnectionProducer) :
    Except Err Unit × couchbaseConnectionProducer × List Event :=
  match c.cluster with
  | some _ =>
    if env.closeOk then
      (.ok (), { c with cluster := none }, [.closeCluster])
    else
      (.error .closeFailed, c, [.closeCluster])
  | none => (.ok (), { c with cluster := none }, [])

/-- Credential-producer configuration (`credsutil.SQLCredentialsProducer`
fields set by `new()` in `couchbase.go`). -/
structure SQLCredentialsProducer where
  DisplayNameLen : Nat
  RoleNameLen : Nat
  UsernameLen : Nat
  Separator : String
deriving DecidableEq

/-- Character-granular model of Go byte-slice truncation `s[:n]`. -/
def strTake (s : String) (n : Nat) : String := ⟨s.data.take n⟩

/-- Username template of the host contract (`dbplugin.UsernameConfig`). -/
structure UsernameConfig where
  DisplayName : String
  RoleName : String
deriving DecidableEq

/-- Modelled from the spec: `GenerateUsername` lives in the vault SDK
(`credsutil.SQLCredentialsProducer`), not among the sources of this repository.
Per the spec it is a pure function of the username template, bounded to a
fixed maximum total length and built from (possibly truncated)
display-name and role-name fragments joined by a fixed separator; the SDK
construction prefixes a `v`, appends the separator-joined truncated
fragments when non-empty, then a random alphanumeric draw and the Unix
timestamp (both passed in here), and finally truncates to `UsernameLen`. -/
def SQLCredentialsProducer.GenerateUsername (scp : SQLCredentialsProducer)
    (userUUID nowUnix : String) (config : UsernameConfig) : String :=
  let username := "v"
  let displayName := config.DisplayName
  let displayName :=
    if 0 < scp.DisplayNameLen ∧ scp.DisplayNameLen < displayName.length then
      strTake displayName scp.DisplayNameLen
    else displayName
  let username :=
    if 0 < displayName.length then
      username ++ scp.Separator ++ displayName
    else username
  let roleName := config.RoleName
  let roleName :=
    if 0 < scp.RoleNameLen ∧ scp.RoleNameLen < roleName.length then
      strTake roleName scp.RoleNameLen
    else roleName
  let username :=
    if 0 < roleName.length then
      username ++ scp.Separator ++ roleName
    else username
  let username := username ++ scp.Separator ++ userUUID
  let username := username ++ scp.Separator ++ nowUnix
  if 0 < scp.UsernameLen ∧ scp.UsernameLen < username.length then
    strTake username scp.UsernameLen
  else username

/-- State of the `Couchbase` struct: the embedded connection producer and
the credentials-producer configuration. -/
structure Couchbase where
  connProducer : couchbaseConnectionProducer
  credsProducer : SQLCredentialsProducer
deriving DecidableEq

/-- Translation of `new()` (`couchbase.go:48`): fresh connection producer
tagged with the plugin type name, and the SQL credentials producer with
display/role fragments capped at 15, usernames capped at 100, separator
`_`. -/
def newCouchbase : Couchbase :=
  { connProducer := { typeName := couchbaseTypeName }
    credsProducer :=
      { DisplayNameLen := 15
        RoleNameLen := 15
        UsernameLen := 100
        Separator := "_" } }

/-- Statements argument of the host contract, restricted to the creation
list the plugin reads. -/
structure Statements where
  Creation : List Stmt := []
deriving DecidableEq

/-- Modelled from the vault SDK: `dbutil.StatementCompatibilityHelper`
reconciles the list-valued statement fields with the deprecated singular
ones; with the deprecated fields unset (as in this model) it leaves the
`Creation` list unchanged. -/
def statementCompatibilityHelper (statements : Statements) : Statements :=
  statements

/-- Static-credential configuration (`dbplugin.StaticUserConfig`). -/
structure StaticUserConfig where
  Username : String
  Password : String
deriving DecidableEq

/-- Translation of `upsertUser` (`couchbase.go:140`): unmarshal the
creation statement (malformed JSON fails with the wrapped parse error),
reject an empty role list, then issue the administrative `UpsertUser` call
with the username, password and the converted roles, returning the pair
on success. -/
def upsertUser (env : Env) (clusterManager : Option ClusterManager)
    (creationStatement : Stmt) (username password : String) :
    Except Err (String × String) × List Event :=
  match jsonUnmarshalCbStatement creationStatement with
  | .error _ => (.error .statementParse, [])
  | .ok cbStatement =>
    if cbStatement.Roles.length = 0 then
      (.error .noRole, [])
    else
      let settings : UserSettings :=
        { Name := username
          Password := password
          Roles := cbStatement.Roles.ToGocbUserRoles }
      let ev := Event.upsertUser authDomain username settings
      if env.upsertOk then
        (.ok (username, password), [ev])
      else
        (.error .upsertFailed, [ev])

/-- Translation of `CreateUser` (`couchbase.go:70`): statement
compatibility, reject an empty creation list, acquire the connection,
generate a username (the SDK generator: a random draw that can fail, then
the pure construction) and a password, then upsert with the FIRST
creation statement. -/
def CreateUser (env : Env) (c : Couchbase) (statements : Statements)
    (usernameConfig : UsernameConfig) :
    Except Err (String × String) × Couchbase × List Event :=
  let statements := statementCompatibilityHelper statements
  match statements.Creation with
  | [] => (.error .emptyCreationStatement, c, [])
  | stmt :: _ =>
    match Connection env c.connProducer with
    | (.error e, cp2, evs) => (.error e, { c with connProducer := cp2 }, evs)
    | (.ok _, cp2, evs) =>
      let c2 := { c with connProducer := cp2 }
      match env.randomUUID with
      | .error _ =>
        (.error .genUsernameFailed, c2, evs ++ [.generateUsername])
      | .ok uuid =>
        let username :=
          c.credsProducer.GenerateUsername uuid env.nowUnix usernameConfig
        match env.genPasswordRes with
        | .error _ =>
          (.error .genPasswordFailed, c2,
            evs ++ [.generateUsername, .generatePassword])
        | .ok password =>
          let r := upsertUser env cp2.clusterManager stmt username password
          (r.1, c2, evs ++ [.generateUsername, .generatePassword] ++ r.2)

/-- Translation of `SetCredentials` (`couchbase.go:99`): identical to
`CreateUser` except the username and password are caller-supplied. -/
def SetCredentials (env : Env) (c : Couchbase) (statements : Statements)
    (staticConfig : StaticUserConfig) :
    Except Err (String × String) × Couchbase × List Event :=
  let statements := statementCompatibilityHelper statements
  match statements.Creation with
  | [] => (.error .emptyCreationStatement, c, [])
  | stmt :: _ =>
    match Connection env c.connProducer with
    | (.error e, cp2, evs) => (.error e, { c with connProducer := cp2 }, evs)
    | (.ok _, cp2, evs) =>
      let c2 := { c with connProducer := cp2 }
      let r :=
        upsertUser env cp2.clusterManager stmt
          staticConfig.Username staticConfig.Password
      (r.1, c2, evs ++ r.2)

/-- Translation of `RenewUser` (`couchbase.go:118`): returns nil
unconditionally; no state change, no outbound call. -/
def RenewUser (c : Couchbase) (statements : Statements)
    (username : String) (expiration : Nat) :
    Except Err Unit × Couchbase × List Event :=
  (.ok (), c, [])

/-- Translation of `RevokeUser` (`couchbase.go:123`): acquire the
connection, then issue the administrative `RemoveUser` call. -/
def RevokeUser (env : Env) (c : Couchbase) (statements : Statements)
    (username : String) :
    Except Err Unit × Couchbase × List Event :=
  match Connection env c.connProducer with
  | (.error e, cp2, evs) => (.error e, { c with connProducer := cp2 }, evs)
  | (.ok _, cp2, evs) =>
    let c2 := { c with connProducer := cp2 }
    let ev := Event.removeUser authDomain username
    if env.removeOk then
      (.ok (), c2, evs ++ [ev])
    else
      (.error .removeFailed, c2, evs ++ [ev])

/-- Translation of `RotateRootCredentials` (`couchbase.go:136`): returns
the not-implemented error unconditionally; no state change, no outbound
call. -/
def RotateRootCredentials (c : Couchbase) (statements : List String) :
    Except Err Conf × Couchbase × List Event :=
  (.error .rootRotationUnsupported, c, [])

/-- Statement rejected by `upsertUser` before the administrative call:
malformed JSON, or a decoded role list with zero roles. -/
def Stmt.bad : Stmt → Bool
  | .malformed _ => true
  | .wellFormed roles => roles.isEmpty

/-- Error `upsertUser` produces for a rejected statement: the parse error
for malformed JSON, the no-role error for an empty role list. -/
def Stmt.badErr : Stmt → Err
  | .malformed _ => .statementParse
  | .wellFormed _ => .noRole

/-- Producer state right after `Init` stored the raw config and
weak-decoded it over the receiver. -/
def decodedOf (conf : Conf) (c : couchbaseConnectionProducer) :
    couchbaseConnectionProducer :=
  weakDecode conf { c with RawConfig := conf }

/-- True when a trace contains no administrative upsert call. -/
def upsertFree (t : List Event) : Bool :=
  t.all fun e => ! e.isUpsert

/-- Sample producer state: initialized with the test-harness configuration
and a cached connection handle (id 1) present. -/
def liveProducer : couchbaseConnectionProducer :=
  { ConnectionString := "couchbase://localhost"
    Username := "admin"
    Password := "password"
    Bucket := "Test"
    typeName := couchbaseTypeName
    Initialized := true
    cluster := some { id := 1 }
    clusterManager := some { clusterId := 1, username := "admin", password := "password" } }

/-- Sample environment: the cluster accepts the connection and hands out a
fresh handle (id 2); every call succeeds. -/
def freshEnv : Env :=
  { connectRes := .ok { id := 2 } }

/-- Sample environment in which `gocb.Connect` fails. -/
def failingConnectEnv : Env :=
  { connectRes := .error "connection refused" }

/-- Sample environment in which `cluster.Close` fails. -/
def failingCloseEnv : Env :=
  { closeOk := false }

/-- Sample configuration map with all four fields present and non-empty. -/
def fullConf : Conf :=
  { connection_string := some "couchbase://localhost"
    username := some "admin"
    password := some "password"
    bucket := some "Test" }

/-- Sample `Couchbase` state: `new()` after a successful `Init` with the
test-harness configuration (no cached connection yet). -/
def readyCouchbase : Couchbase :=
  { newCouchbase with
    connProducer :=
      { newCouchbase.connProducer with
        ConnectionString := "couchbase://localhost"
        Username := "admin"
        Password := "password"
        Bucket := "Test"
        RawConfig := fullConf
        Initialized := true } }

/-- Sample well-formed creation statement with one role, as in the tests of the repository. -/
def sampleStmt : Stmt :=
  .wellFormed [{ Role := "bucket_full_access", BucketName := "Test" }]

/-- Unfolded form of `Init` phrased with `decodedOf`, for rewriting. -/
theorem Init_eq (env : Env) (c : couchbaseConnectionProducer) (conf : Conf)
    (verifyConnection : Bool) :
    Init env c conf verifyConnection =
      (let d := decodedOf conf c
       if d.ConnectionString.length = 0 then
         (.error .emptyConnectionString, d, [])
       else if d.Username.length = 0 then
         (.error .emptyUsername, d, [])
       else if d.Password.length = 0 then
         (.error .emptyPassword, d, [])
       else
         let d2 := { d with Initialized := true }
         if verifyConnection then
           match Connection env d2 with
           | (.error e, c2, evs) => (.error (.verifyFailed e), c2, evs)
           | (.ok _, c2, evs) => (.ok conf, c2, evs)
         else
           (.ok conf, d2, [])) := rfl

/-- The connection routine never changes the initialized flag. -/
theorem Connection_preserves_Initialized (env : Env)
    (c : couchbaseConnectionProducer) :
    (Connection env c).2.1.Initialized = c.Initialized := by
  cases hI : c.Initialized <;>
    rcases hr : env.connectRes with e | cl <;>
      cases ha : env.authOk <;>
        cases ho : env.openBucketOk <;>
          simp [Connection, hI, hr, ha, ho]

/-- Shape of a fully successful connection acquisition. -/
theorem Connection_success (env : Env) (c : couchbaseConnectionProducer)
    (cl : Cluster) (hI : c.Initialized = true)
    (hr : env.connectRes = .ok cl) (ha : env.authOk = true)
    (ho : env.openBucketOk = true) :
    Connection env c =
      (.ok cl,
       { c with
         cluster := some cl
         clusterManager := some
           { clusterId := cl.id
             username := c.Username
             password := c.Password } },
       [.connect c.ConnectionString,
        .authenticate c.Username c.Password,
        .openBucket c.Bucket]) := by
  simp [Connection, hI, hr, ha, ho]

/-- C7: `RenewUser` returns success for every input (any statements,
username and expiration, including an already-revoked username), leaves
the state unchanged, and issues no outbound call. -/
theorem RenewUser_always_succeeds (c : Couchbase) (statements : Statements)
    (username : String) (expiration : Nat) :
    RenewUser c statements username expiration = (.ok (), c, []) := rfl

/-- C8: `RotateRootCredentials` returns the unsupported-operation error for
every input, leaves the whole state unchanged (in particular endpoint,
admin username, admin password, bucket and the initialized flag), and
issues no outbound call. -/
theorem RotateRootCredentials_unsupported_and_unchanged (c : Couchbase)
    (statements : List String) :
    RotateRootCredentials c statements =
      (.error .rootRotationUnsupported, c, []) ∧
    (RotateRootCredentials c statements).2.1.connProducer.ConnectionString
      = c.connProducer.ConnectionString ∧
    (RotateRootCredentials c statements).2.1.connProducer.Username
      = c.connProducer.Username ∧
    (RotateRootCredentials c statements).2.1.connProducer.Password
      = c.connProducer.Password ∧
    (RotateRootCredentials c statements).2.1.connProducer.Bucket
      = c.connProducer.Bucket ∧
    (RotateRootCredentials c statements).2.1.connProducer.Initialized
      = c.connProducer.Initialized :=
  ⟨rfl, rfl, rfl, rfl, rfl, rfl⟩

/-- C5: a call to `CreateUser` or `SetCredentials` whose creation-statement
list is empty fails with the empty-creation-statement error, leaves the
state unchanged, and performs nothing at all (empty trace: no connection,
no credential generation, no upsert). -/
theorem empty_statements_rejected_before_connection (env : Env)
    (c : Couchbase) (statements : Statements)
    (usernameConfig : UsernameConfig) (staticConfig : StaticUserConfig)
    (hempty : (statementCompatibilityHelper statements).Creation = []) :
    CreateUser env c statements usernameConfig =
      (.error .emptyCreationStatement, c, []) ∧
    SetCredentials env c statements staticConfig =
      (.error .emptyCreationStatement, c, []) := by
  simp only [statementCompatibilityHelper] at hempty
  constructor <;>
    simp [CreateUser, SetCredentials, statementCompatibilityHelper, hempty]

/-- Witness for C5 at a concrete input. -/
theorem empty_statements_rejected_before_connection_witness :
    (statementCompatibilityHelper {}).Creation = [] ∧
    (CreateUser freshEnv readyCouchbase {}
        { DisplayName := "test-user", RoleName := "test-role" } =
      (.error .emptyCreationStatement, readyCouchbase, []) ∧
     SetCredentials freshEnv readyCouchbase {}
        { Username := "test-user", Password := "test-password" } =
      (.error .emptyCreationStatement, readyCouchbase, [])) :=
  ⟨rfl,
   empty_statements_rejected_before_connection freshEnv readyCouchbase {}
     { DisplayName := "test-user", RoleName := "test-role" }
     { Username := "test-user", Password := "test-password" } rfl⟩

/-- C10: `CreateUser` and `SetCredentials` use only the first entry of the
creation-statement list: two non-empty lists agreeing on their first entry
yield identical results, final states and traces. -/
theorem only_first_creation_statement_used (env : Env) (c : Couchbase)
    (s1 s2 : Statements) (usernameConfig : UsernameConfig)
    (staticConfig : StaticUserConfig)
    (h1 : s1.Creation ≠ []) (h2 : s2.Creation ≠ [])
    (hh : s1.Creation.head? = s2.Creation.head?) :
    CreateUser env c s1 usernameConfig = CreateUser env c s2 usernameConfig ∧
    SetCredentials env c s1 staticConfig = SetCredentials env c s2 staticConfig := by
  rcases hc1 : s1.Creation with _ | ⟨a, l1⟩
  · exact absurd hc1 h1
  rcases hc2 : s2.Creation with _ | ⟨b, l2⟩
  · exact absurd hc2 h2
  rw [hc1, hc2] at hh
  simp only [List.head?_cons, Option.some.injEq] at hh
  subst hh
  constructor <;>
    simp [CreateUser, SetCredentials, statementCompatibilityHelper, hc1, hc2]

/-- Witness for C10 at concrete inputs differing after the first entry. -/
theorem only_first_creation_statement_used_witness :
    (⟨[sampleStmt]⟩ : Statements).Creation ≠ [] ∧
    (⟨[sampleStmt, Stmt.malformed "x"]⟩ : Statements).Creation ≠ [] ∧
    (⟨[sampleStmt]⟩ : Statements).Creation.head?
      = (⟨[sampleStmt, Stmt.malformed "x"]⟩ : Statements).Creation.head? ∧
    (CreateUser freshEnv readyCouchbase ⟨[sampleStmt]⟩
        { DisplayName := "test-user", RoleName := "test-role" } =
      CreateUser freshEnv readyCouchbase ⟨[sampleStmt, Stmt.malformed "x"]⟩
        { DisplayName := "test-user", RoleName := "test-role" } ∧
     SetCredentials freshEnv readyCouchbase ⟨[sampleStmt]⟩
        { Username := "test-user", Password := "test-password" } =
      SetCredentials freshEnv readyCouchbase ⟨[sampleStmt, Stmt.malformed "x"]⟩
        { Username := "test-user", Password := "test-password" }) :=
  ⟨by simp, by simp, rfl,
   only_first_creation_statement_used freshEnv readyCouchbase
     ⟨[sampleStmt]⟩ ⟨[sampleStmt, Stmt.malformed "x"]⟩
     { DisplayName := "test-user", RoleName := "test-role" }
     { Username := "test-user", Password := "test-password" }
     (by simp) (by simp) rfl⟩

/-- C3 (counterexample): when closing the cached connection fails, `Close`
returns the error and the cached reference is NOT cleared — refuting the
claim that after any call to close the cached connection reference is nil. -/
theorem Close_keeps_cache_on_error_cex :
    (Close failingCloseEnv liveProducer).1 = .error .closeFailed ∧
    (Close failingCloseEnv liveProducer).2.1.cluster = some { id := 1 } ∧
    ¬ (Close failingCloseEnv liveProducer).2.1.cluster = none := by
  decide

/-- C3 (amended): `Close` is a no-op returning ok when nothing is open, and
clears the cached reference when the close succeeds; but when closing the
cached connection fails it returns the error and leaves the cached
reference as it was. -/
theorem Close_clears_cache_unless_close_fails (env : Env)
    (c : couchbaseConnectionProducer) :
    (c.cluster = none → Close env c = (.ok (), c, [])) ∧
    (∀ cl, c.cluster = some cl → env.closeOk = true →
      Close env c = (.ok (), { c with cluster := none }, [.closeCluster])) ∧
    (∀ cl, c.cluster = some cl → env.closeOk = false →
      Close env c = (.error .closeFailed, c, [.closeCluster])) := by
  refine ⟨?_, ?_, ?_⟩
  · intro h
    rcases c with ⟨f1, f2, f3, f4, f5, f6, f7, f8, f9⟩
    simp only at h
    subst h
    simp [Close]
  · intro cl h hc
    simp [Close, h, hc]
  · intro cl h hc
    simp [Close, h, hc]

/-- Witness for the amended theorem of C3 at a concrete failing close. -/
theorem Close_clears_cache_unless_close_fails_witness :
    liveProducer.cluster = some { id := 1 } ∧
    failingCloseEnv.closeOk = false ∧
    Close failingCloseEnv liveProducer =
      (.error .closeFailed, liveProducer, [.closeCluster]) :=
  ⟨rfl, rfl,
   (Close_clears_cache_unless_close_fails failingCloseEnv liveProducer).2.2
     { id := 1 } rfl rfl⟩

/-- C2 (counterexample): with a well-formed configuration and verification
requested, a connection failure makes `Init` return an error even though
the call has already set the initialized flag to true — refuting the claim
that the flag is set only on success. -/
theorem Init_initialized_despite_verify_failure_cex :
    (Init failingConnectEnv {} fullConf true).1 =
      .error (.verifyFailed .connectFailed) ∧
    (Init failingConnectEnv {} fullConf true).2.1.Initialized = true ∧
    ({} : couchbaseConnectionProducer).Initialized = false := by
  decide

/-- C2 (amended): `Init` rejects an empty endpoint, empty admin username or
empty admin password without setting the initialized flag; once those
validations pass the flag is set to true — even when a requested
connection verification subsequently fails and the call returns an error. -/
theorem Init_validation_and_initialized_amended (env : Env)
    (c : couchbaseConnectionProducer) (conf : Conf) (verifyConnection : Bool) :
    ((decodedOf conf c).ConnectionString.length = 0 →
      Init env c conf verifyConnection =
        (.error .emptyConnectionString, decodedOf conf c, [])) ∧
    ((decodedOf conf c).ConnectionString.length ≠ 0 →
      (decodedOf conf c).Username.length = 0 →
      Init env c conf verifyConnection =
        (.error .emptyUsername, decodedOf conf c, [])) ∧
    ((decodedOf conf c).ConnectionString.length ≠ 0 →
      (decodedOf conf c).Username.length ≠ 0 →
      (decodedOf conf c).Password.length = 0 →
      Init env c conf verifyConnection =
        (.error .emptyPassword, decodedOf conf c, [])) ∧
    ((decodedOf conf c).ConnectionString.length ≠ 0 →
      (decodedOf conf c).Username.length ≠ 0 →
      (decodedOf conf c).Password.length ≠ 0 →
      (Init env c conf verifyConnection).2.1.Initialized = true) := by
  refine ⟨?_, ?_, ?_, ?_⟩
  · intro h
    rw [Init_eq]
    simp [h]
  · intro h1 h2
    rw [Init_eq]
    simp [h1, h2]
  · intro h1 h2 h3
    rw [Init_eq]
    simp [h1, h2, h3]
  · intro h1 h2 h3
    rw [Init_eq]
    simp only [h1, h2, h3, if_neg]
    cases hv : verifyConnection
    · simp
    · simp only [if_pos]
      rcases hC : Connection env { decodedOf conf c with Initialized := true } with ⟨r, c2, evs⟩
      have hpres := Connection_preserves_Initialized env
        { decodedOf conf c with Initialized := true }
      rw [hC] at hpres
      cases r <;> simpa using hpres

/-- Witness for the amended theorem of C2: the verification-failure case. -/
theorem Init_validation_and_initialized_amended_witness :
    ((decodedOf fullConf {}).ConnectionString.length ≠ 0 ∧
     (decodedOf fullConf {}).Username.length ≠ 0 ∧
     (decodedOf fullConf {}).Password.length ≠ 0) ∧
    (Init failingConnectEnv {} fullConf true).2.1.Initialized = true :=
  ⟨⟨by decide, by decide, by decide⟩,
   (Init_validation_and_initialized_amended failingConnectEnv {} fullConf
       true).2.2.2 (by decide) (by decide) (by decide)⟩

/-- C1 (counterexample): with a connection already cached (handle 1) and
the world handing out a fresh handle 2, a further acquire establishes a
new connection (a connect call is issued, handle 2 is returned and cached)
instead of reusing the cached one — refuting the claim that a new
connection is established only when the cached one is absent. -/
theorem Connection_ignores_cached_cluster_cex :
    liveProducer.cluster = some { id := 1 } ∧
    (Connection freshEnv liveProducer).1 = .ok { id := 2 } ∧
    (Connection freshEnv liveProducer).2.1.cluster = some { id := 2 } ∧
    Event.connect "couchbase://localhost" ∈ (Connection freshEnv liveProducer).2.2 ∧
    ({ id := 2 } : Cluster) ≠ { id := 1 } := by
  decide

/-- C1 (amended): while initialized, every successful acquire issues a
fresh connect call and returns the newly established connection — the one
the external world handed out — overwriting the cached reference with it;
the previously cached connection is never consulted or reused. -/
theorem Connection_always_establishes_fresh (env : Env)
    (c : couchbaseConnectionProducer) (cl : Cluster)
    (hI : c.Initialized = true) (hok : (Connection env c).1 = .ok cl) :
    Event.connect c.ConnectionString ∈ (Connection env c).2.2 ∧
    env.connectRes = .ok cl ∧
    (Connection env c).2.1.cluster = some cl := by
  rcases hr : env.connectRes with e | cl2
  · simp [Connection, hI, hr] at hok
  · cases ha : env.authOk
    · simp [Connection, hI, hr, ha] at hok
    · cases ho : env.openBucketOk
      · simp [Connection, hI, hr, ha, ho] at hok
      · have hCS := Connection_success env c cl2 hI hr ha ho
        rw [hCS] at hok
        simp only [Except.ok.injEq] at hok
        subst hok
        rw [hCS]
        exact ⟨by simp, rfl, rfl⟩

/-- Traces of connection acquisitions contain no administrative upsert. -/
theorem connection_trace_upsertFree (env : Env)
    (c : couchbaseConnectionProducer) :
    upsertFree (Connection env c).2.2 = true := by
  cases hI : c.Initialized <;>
    rcases hr : env.connectRes with e | cl <;>
      cases ha : env.authOk <;>
        cases ho : env.openBucketOk <;>
          simp [Connection, hI, hr, ha, ho, upsertFree, Event.isUpsert]

/-- upsert-freedom distributes over trace concatenation. -/
theorem upsertFree_append (a b : List Event) :
    upsertFree (a ++ b) = (upsertFree a && upsertFree b) := by
  simp [upsertFree, List.all_append]

/-- A statement rejected by the two checks of `upsertUser` yields the
respective error with an empty trace: no administrative call is issued. -/
theorem upsertUser_bad (env : Env) (cm : Option ClusterManager) (s : Stmt)
    (u p : String) (hbad : Stmt.bad s = true) :
    upsertUser env cm s u p = (.error s.badErr, []) := by
  cases s with
  | malformed raw => simp [upsertUser, jsonUnmarshalCbStatement, Stmt.badErr]
  | wellFormed roles =>
    cases roles with
    | nil => simp [upsertUser, jsonUnmarshalCbStatement, Stmt.badErr]
    | cons a l => simp [Stmt.bad] at hbad

/-- Shape of `upsertUser` on a well-formed statement with at least one
role: exactly one administrative upsert call carrying the converted
roles. -/
theorem upsertUser_wellFormed (env : Env) (cm : Option ClusterManager)
    (roles : CbRoles) (u p : String) (hne : roles ≠ []) :
    upsertUser env cm (.wellFormed roles) u p =
      (if env.upsertOk then .ok (u, p) else .error .upsertFailed,
       [Event.upsertUser authDomain u
         { Name := u, Password := p, Roles := roles.ToGocbUserRoles }]) := by
  rcases roles with _ | ⟨a, l⟩
  · exact absurd rfl hne
  · by_cases hup : env.upsertOk <;>
      simp [upsertUser, jsonUnmarshalCbStatement, hup]

/-- Whenever `upsertUser` reports success, the returned pair is the
username and password it was handed. -/
theorem upsertUser_ok_inv (env : Env) (cm : Option ClusterManager)
    (s : Stmt) (u0 p0 u p : String)
    (h : (upsertUser env cm s u0 p0).1 = .ok (u, p)) : u = u0 ∧ p = p0 := by
  cases s with
  | malformed raw => simp [upsertUser, jsonUnmarshalCbStatement] at h
  | wellFormed roles =>
    rcases roles with _ | ⟨a, l⟩
    · simp [upsertUser, jsonUnmarshalCbStatement] at h
    · by_cases hup : env.upsertOk
      · simp [upsertUser, jsonUnmarshalCbStatement, hup] at h
        exact ⟨h.1.symm, h.2.symm⟩
      · simp [upsertUser, jsonUnmarshalCbStatement, hup] at h

/-- Shape of `CreateUser` once the connection and both credential
generations succeed: the result and the tail of the trace are those of
`upsertUser` applied to the FIRST creation statement and the generated
credentials. -/
theorem CreateUser_connected (env : Env) (c : Couchbase)
    (stmts : Statements) (usernameConfig : UsernameConfig) (s : Stmt)
    (rest : List Stmt) (cl : Cluster) (uuid pw : String)
    (hc : stmts.Creation = s :: rest)
    (hI : c.connProducer.Initialized = true)
    (hr : env.connectRes = .ok cl) (ha : env.authOk = true)
    (ho : env.openBucketOk = true)
    (hu : env.randomUUID = .ok uuid) (hp : env.genPasswordRes = .ok pw) :
    CreateUser env c stmts usernameConfig =
      ((upsertUser env
          (some { clusterId := cl.id
                  username := c.connProducer.Username
                  password := c.connProducer.Password })
          s (c.credsProducer.GenerateUsername uuid env.nowUnix usernameConfig)
          pw).1,
       { c with connProducer :=
          { c.connProducer with
            cluster := some cl
            clusterManager := some
              { clusterId := cl.id
                username := c.connProducer.Username
                password := c.connProducer.Password } } },
       [.connect c.connProducer.ConnectionString,
        .authenticate c.connProducer.Username c.connProducer.Password,
        .openBucket c.connProducer.Bucket,
        .generateUsername, .generatePassword]
         ++ (upsertUser env
              (some { clusterId := cl.id
                      username := c.connProducer.Username
                      password := c.connProducer.Password })
              s (c.credsProducer.GenerateUsername uuid env.nowUnix usernameConfig)
              pw).2) := by
  have hCS := Connection_success env c.connProducer cl hI hr ha ho
  simp [CreateUser, statementCompatibilityHelper, hc, hCS, hu, hp]

/-- Shape of `SetCredentials` once the connection succeeds: the result and
the tail of the trace are those of `upsertUser` applied to the FIRST
creation statement and the caller-supplied credentials. -/
theorem SetCredentials_connected (env : Env) (c : Couchbase)
    (stmts : Statements) (staticConfig : StaticUserConfig) (s : Stmt)
    (rest : List Stmt) (cl : Cluster)
    (hc : stmts.Creation = s :: rest)
    (hI : c.connProducer.Initialized = true)
    (hr : env.connectRes = .ok cl) (ha : env.authOk = true)
    (ho : env.openBucketOk = true) :
    SetCredentials env c stmts staticConfig =
      ((upsertUser env
          (some { clusterId := cl.id
                  username := c.connProducer.Username
                  password := c.connProducer.Password })
          s staticConfig.Username staticConfig.Password).1,
       { c with connProducer :=
          { c.connProducer with
            cluster := some cl
            clusterManager := some
              { clusterId := cl.id
                username := c.connProducer.Username
                password := c.connProducer.Password } } },
       [.connect c.connProducer.ConnectionString,
        .authenticate c.connProducer.Username c.connProducer.Password,
        .openBucket c.connProducer.Bucket]
         ++ (upsertUser env
              (some { clusterId := cl.id
                      username := c.connProducer.Username
                      password := c.connProducer.Password })
              s staticConfig.Username staticConfig.Password).2) := by
  have hCS := Connection_success env c.connProducer cl hI hr ha ho
  simp [SetCredentials, statementCompatibilityHelper, hc, hCS]

/-- With a rejected first statement, `CreateUser` fails whatever the
environment does, and its trace never contains an administrative upsert. -/
theorem CreateUser_bad_first (env : Env) (c : Couchbase)
    (stmts : Statements) (usernameConfig : UsernameConfig) (s : Stmt)
    (rest : List Stmt)
    (hc : stmts.Creation = s :: rest) (hbad : Stmt.bad s = true) :
    (CreateUser env c stmts usernameConfig).1.isOk = false ∧
    upsertFree (CreateUser env c stmts usernameConfig).2.2 = true := by
  rcases hConn : Connection env c.connProducer with ⟨r, cp2, evs⟩
  have htr : upsertFree evs = true := by
    have h0 := connection_trace_upsertFree env c.connProducer
    rw [hConn] at h0
    exact h0
  cases r with
  | error e =>
    simp_all [CreateUser, statementCompatibilityHelper, Except.isOk,
      Except.toBool]
  | ok cl =>
    rcases hru : env.randomUUID with eu | uuid
    · simp_all [CreateUser, statementCompatibilityHelper, Except.isOk,
        Except.toBool, upsertFree, Event.isUpsert]
    · rcases hpw : env.genPasswordRes with ep | pw
      · simp_all [CreateUser, statementCompatibilityHelper, Except.isOk,
          Except.toBool, upsertFree, Event.isUpsert]
      · simp_all [CreateUser, statementCompatibilityHelper, upsertUser_bad,
          Except.isOk, Except.toBool, upsertFree, Event.isUpsert]

/-- With a rejected first statement, `SetCredentials` fails whatever the
environment does, and its trace never contains an administrative upsert. -/
theorem SetCredentials_bad_first (env : Env) (c : Couchbase)
    (stmts : Statements) (staticConfig : StaticUserConfig) (s : Stmt)
    (rest : List Stmt)
    (hc : stmts.Creation = s :: rest) (hbad : Stmt.bad s = true) :
    (SetCredentials env c stmts staticConfig).1.isOk = false ∧
    upsertFree (SetCredentials env c stmts staticConfig).2.2 = true := by
  rcases hConn : Connection env c.connProducer with ⟨r, cp2, evs⟩
  have htr : upsertFree evs = true := by
    have h0 := connection_trace_upsertFree env c.connProducer
    rw [hConn] at h0
    exact h0
  cases r with
  | error e =>
    simp_all [SetCredentials, statementCompatibilityHelper, Except.isOk,
      Except.toBool]
  | ok cl =>
    simp_all [SetCredentials, statementCompatibilityHelper, upsertUser_bad,
      Except.isOk, Except.toBool, upsertFree, Event.isUpsert]

/-- C4: for a first creation statement that is malformed JSON or decodes
to zero roles, `CreateUser` and `SetCredentials` always fail and never
issue the administrative upsert call (no identity is created or
modified); when the call otherwise proceeds (connection and credential
generation succeed), the failure is precisely the parse error for
malformed JSON and the no-role error for an empty role list. -/
theorem bad_statement_no_upsert (env : Env) (c : Couchbase)
    (stmts : Statements) (usernameConfig : UsernameConfig)
    (staticConfig : StaticUserConfig) (s : Stmt) (rest : List Stmt)
    (hc : stmts.Creation = s :: rest) (hbad : Stmt.bad s = true) :
    ((CreateUser env c stmts usernameConfig).1.isOk = false ∧
     upsertFree (CreateUser env c stmts usernameConfig).2.2 = true ∧
     (SetCredentials env c stmts staticConfig).1.isOk = false ∧
     upsertFree (SetCredentials env c stmts staticConfig).2.2 = true) ∧
    (∀ cl uuid pw, c.connProducer.Initialized = true →
      env.connectRes = .ok cl → env.authOk = true →
      env.openBucketOk = true → env.randomUUID = .ok uuid →
      env.genPasswordRes = .ok pw →
      (CreateUser env c stmts usernameConfig).1 = .error s.badErr ∧
      (SetCredentials env c stmts staticConfig).1 = .error s.badErr) := by
  have h1 := CreateUser_bad_first env c stmts usernameConfig s rest hc hbad
  have h2 := SetCredentials_bad_first env c stmts staticConfig s rest hc hbad
  refine ⟨⟨h1.1, h1.2, h2.1, h2.2⟩, ?_⟩
  intro cl uuid pw hI hr ha ho hu hp
  rw [CreateUser_connected env c stmts usernameConfig s rest cl uuid pw
      hc hI hr ha ho hu hp,
    SetCredentials_connected env c stmts staticConfig s rest cl hc hI hr ha ho]
  simp [upsertUser_bad, hbad]

/-- Witness for C4 at a concrete zero-role statement. -/
theorem bad_statement_no_upsert_witness :
    (⟨[Stmt.wellFormed []]⟩ : Statements).Creation = Stmt.wellFormed [] :: [] ∧
    Stmt.bad (Stmt.wellFormed []) = true ∧
    (((CreateUser freshEnv readyCouchbase ⟨[Stmt.wellFormed []]⟩
        { DisplayName := "test-user", RoleName := "test-role" }).1.isOk = false ∧
      upsertFree (CreateUser freshEnv readyCouchbase ⟨[Stmt.wellFormed []]⟩
        { DisplayName := "test-user", RoleName := "test-role" }).2.2 = true ∧
      (SetCredentials freshEnv readyCouchbase ⟨[Stmt.wellFormed []]⟩
        { Username := "test-user", Password := "test-password" }).1.isOk = false ∧
      upsertFree (SetCredentials freshEnv readyCouchbase ⟨[Stmt.wellFormed []]⟩
        { Username := "test-user", Password := "test-password" }).2.2 = true) ∧
     (∀ cl uuid pw, readyCouchbase.connProducer.Initialized = true →
       freshEnv.connectRes = .ok cl → freshEnv.authOk = true →
       freshEnv.openBucketOk = true → freshEnv.randomUUID = .ok uuid →
       freshEnv.genPasswordRes = .ok pw →
       (CreateUser freshEnv readyCouchbase ⟨[Stmt.wellFormed []]⟩
         { DisplayName := "test-user", RoleName := "test-role" }).1 =
           .error (Stmt.wellFormed []).badErr ∧
       (SetCredentials freshEnv readyCouchbase ⟨[Stmt.wellFormed []]⟩
         { Username := "test-user", Password := "test-password" }).1 =
           .error (Stmt.wellFormed []).badErr)) :=
  ⟨rfl, rfl,
   bad_statement_no_upsert freshEnv readyCouchbase ⟨[Stmt.wellFormed []]⟩
     { DisplayName := "test-user", RoleName := "test-role" }
     { Username := "test-user", Password := "test-password" }
     (Stmt.wellFormed []) [] rfl rfl⟩

/-- C6: when `CreateUser` or `SetCredentials` reaches the upsert step, the
administrative call carries exactly the parsed roles of the first creation
statement: one upsert event, whose settings hold a role list of the same
length and order, each entry with the same role name and bucket name as
the corresponding parsed role. -/
theorem upsert_receives_exactly_parsed_roles (env : Env) (c : Couchbase)
    (stmts : Statements) (usernameConfig : UsernameConfig)
    (staticConfig : StaticUserConfig) (roles : CbRoles) (rest : List Stmt)
    (cl : Cluster) (uuid pw : String)
    (hc : stmts.Creation = Stmt.wellFormed roles :: rest)
    (hne : roles ≠ [])
    (hI : c.connProducer.Initialized = true)
    (hr : env.connectRes = .ok cl) (ha : env.authOk = true)
    (ho : env.openBucketOk = true)
    (hu : env.randomUUID = .ok uuid) (hp : env.genPasswordRes = .ok pw) :
    ∃ s1 s2 : UserSettings,
      (CreateUser env c stmts usernameConfig).2.2.filter Event.isUpsert =
        [Event.upsertUser authDomain s1.Name s1] ∧
      s1.Name = c.credsProducer.GenerateUsername uuid env.nowUnix usernameConfig ∧
      s1.Roles.length = roles.length ∧
      (∀ i (h1 : i < s1.Roles.length) (h2 : i < roles.length),
        (s1.Roles.get ⟨i, h1⟩).Role = (roles.get ⟨i, h2⟩).Role ∧
        (s1.Roles.get ⟨i, h1⟩).BucketName = (roles.get ⟨i, h2⟩).BucketName) ∧
      (SetCredentials env c stmts staticConfig).2.2.filter Event.isUpsert =
        [Event.upsertUser authDomain s2.Name s2] ∧
      s2.Name = staticConfig.Username ∧
      s2.Roles.length = roles.length ∧
      (∀ i (h1 : i < s2.Roles.length) (h2 : i < roles.length),
        (s2.Roles.get ⟨i, h1⟩).Role = (roles.get ⟨i, h2⟩).Role ∧
        (s2.Roles.get ⟨i, h1⟩).BucketName = (roles.get ⟨i, h2⟩).BucketName) := by
  have hcu := CreateUser_connected env c stmts usernameConfig
    (Stmt.wellFormed roles) rest cl uuid pw hc hI hr ha ho hu hp
  have hsc := SetCredentials_connected env c stmts staticConfig
    (Stmt.wellFormed roles) rest cl hc hI hr ha ho
  refine ⟨{ Name := c.credsProducer.GenerateUsername uuid env.nowUnix usernameConfig
            Password := pw
            Roles := roles.ToGocbUserRoles },
          { Name := staticConfig.Username
            Password := staticConfig.Password
            Roles := roles.ToGocbUserRoles },
          ?_, rfl, ?_, ?_, ?_, rfl, ?_, ?_⟩
  · rw [hcu, upsertUser_wellFormed _ _ _ _ _ hne]
    simp [Event.isUpsert]
  · simp [CbRoles.ToGocbUserRoles]
  · intro i h1 h2
    simp [CbRoles.ToGocbUserRoles, List.get_eq_getElem, List.getElem_map]
  · rw [hsc, upsertUser_wellFormed _ _ _ _ _ hne]
    simp [Event.isUpsert]
  · simp [CbRoles.ToGocbUserRoles]
  · intro i h1 h2
    simp [CbRoles.ToGocbUserRoles, List.get_eq_getElem, List.getElem_map]

/-- Witness for C6 at the test statement of the repository (one role on bucket
`Test`). -/
theorem upsert_receives_exactly_parsed_roles_witness :
    ([{ Role := "bucket_full_access", BucketName := "Test" }] : CbRoles) ≠ [] ∧
    (∃ s1 s2 : UserSettings,
      (CreateUser freshEnv readyCouchbase ⟨[sampleStmt]⟩
          { DisplayName := "test-user", RoleName := "test-role" }).2.2.filter
          Event.isUpsert =
        [Event.upsertUser authDomain s1.Name s1] ∧
      s1.Name = readyCouchbase.credsProducer.GenerateUsername "" freshEnv.nowUnix
          { DisplayName := "test-user", RoleName := "test-role" } ∧
      s1.Roles.length =
        ([{ Role := "bucket_full_access", BucketName := "Test" }] : CbRoles).length ∧
      (∀ i (h1 : i < s1.Roles.length)
          (h2 : i < ([{ Role := "bucket_full_access", BucketName := "Test" }] : CbRoles).length),
        (s1.Roles.get ⟨i, h1⟩).Role =
          (([{ Role := "bucket_full_access", BucketName := "Test" }] : CbRoles).get ⟨i, h2⟩).Role ∧
        (s1.Roles.get ⟨i, h1⟩).BucketName =
          (([{ Role := "bucket_full_access", BucketName := "Test" }] : CbRoles).get ⟨i, h2⟩).BucketName) ∧
      (SetCredentials freshEnv readyCouchbase ⟨[sampleStmt]⟩
          { Username := "test-user", Password := "test-password" }).2.2.filter
          Event.isUpsert =
        [Event.upsertUser authDomain s2.Name s2] ∧
      s2.Name = ({ Username := "test-user", Password := "test-password" } : StaticUserConfig).Username ∧
      s2.Roles.length =
        ([{ Role := "bucket_full_access", BucketName := "Test" }] : CbRoles).length ∧
      (∀ i (h1 : i < s2.Roles.length)
          (h2 : i < ([{ Role := "bucket_full_access", BucketName := "Test" }] : CbRoles).length),
        (s2.Roles.get ⟨i, h1⟩).Role =
          (([{ Role := "bucket_full_access", BucketName := "Test" }] : CbRoles).get ⟨i, h2⟩).Role ∧
        (s2.Roles.get ⟨i, h1⟩).BucketName =
          (([{ Role := "bucket_full_access", BucketName := "Test" }] : CbRoles).get ⟨i, h2⟩).BucketName)) :=
  ⟨by simp,
   upsert_receives_exactly_parsed_roles freshEnv readyCouchbase ⟨[sampleStmt]⟩
     { DisplayName := "test-user", RoleName := "test-role" }
     { Username := "test-user", Password := "test-password" }
     [{ Role := "bucket_full_access", BucketName := "Test" }] [] { id := 2 } "" ""
     rfl (by simp) rfl rfl rfl rfl rfl rfl⟩

/-- Length of a truncation: the minimum of the bound and the original. -/
theorem strTake_length_eq (s : String) (n : Nat) :
    (strTake s n).length = min n s.length := by
  rcases s with ⟨l⟩
  show (l.take n).length = min n l.length
  exact List.length_take n l

/-- A truncation never exceeds its bound. -/
theorem strTake_length_le (s : String) (n : Nat) :
    (strTake s n).length ≤ n := by
  rw [strTake_length_eq]
  omega

/-- Truncating a string already within the bound is the identity. -/
theorem strTake_eq_of_le (s : String) (n : Nat) (h : s.length ≤ n) :
    strTake s n = s := by
  rcases s with ⟨l⟩
  have h2 : l.length ≤ n := h
  exact congrArg String.mk (List.take_of_length_le h2)

/-- The final bounding step of the generator stays within the bound. -/
theorem finalTrunc_le (s : String) (n : Nat) (hn : 0 < n) :
    (if 0 < n ∧ n < s.length then strTake s n else s).length ≤ n := by
  split
  · exact strTake_length_le _ _
  · rename_i h
    omega

/-- The final bounding step of the generator is plain truncation when the
bound is positive. -/
theorem finalTrunc_eq (s : String) (n : Nat) (hn : 0 < n) :
    (if 0 < n ∧ n < s.length then strTake s n else s) = strTake s n := by
  split
  · rfl
  · rename_i h
    exact (strTake_eq_of_le _ _ (by omega)).symm

/-- The username generator under the plugin configuration never exceeds
100 characters. -/
theorem generateUsername_new_le (uuid ts : String) (cfg : UsernameConfig) :
    (newCouchbase.credsProducer.GenerateUsername uuid ts cfg).length ≤ 100 := by
  simp only [SQLCredentialsProducer.GenerateUsername, newCouchbase]
  exact finalTrunc_le _ 100 (by omega)

/-- With non-empty display and role names, the username generator with the
plugin configuration produces exactly the separator-joined construction
truncated to 100 characters, with each fragment truncated to 15. -/
theorem generateUsername_new_spec (uuid ts : String) (cfg : UsernameConfig)
    (hd : 0 < cfg.DisplayName.length) (hrn : 0 < cfg.RoleName.length) :
    newCouchbase.credsProducer.GenerateUsername uuid ts cfg =
      strTake (((("v" ++ "_" ++ strTake cfg.DisplayName 15) ++ "_"
        ++ strTake cfg.RoleName 15) ++ "_" ++ uuid) ++ "_" ++ ts) 100 := by
  have ed : (if 0 < (15 : Nat) ∧ 15 < cfg.DisplayName.length then
      strTake cfg.DisplayName 15 else cfg.DisplayName) = strTake cfg.DisplayName 15 := by
    split
    · rfl
    · rename_i h
      exact (strTake_eq_of_le _ _ (by omega)).symm
  have er : (if 0 < (15 : Nat) ∧ 15 < cfg.RoleName.length then
      strTake cfg.RoleName 15 else cfg.RoleName) = strTake cfg.RoleName 15 := by
    split
    · rfl
    · rename_i h
      exact (strTake_eq_of_le _ _ (by omega)).symm
  have pd : 0 < (strTake cfg.DisplayName 15).length := by
    rw [strTake_length_eq]
    omega
  have pr : 0 < (strTake cfg.RoleName 15).length := by
    rw [strTake_length_eq]
    omega
  simp only [SQLCredentialsProducer.GenerateUsername, newCouchbase, ed, er,
    if_pos pd, if_pos pr]
  exact finalTrunc_eq _ 100 (by omega)

/-- C9: every username `CreateUser` successfully returns (with the
credentials producer configured by `new()`) is at most 100 characters, and
— whenever display and role names are non-empty — is exactly the
construction from a display fragment truncated to 15 and a role fragment
truncated to 15, joined by `_` (together with the fixed leading letter, the
random draw and timestamp), truncated to 100. -/
theorem CreateUser_username_bounded (env : Env) (c : Couchbase)
    (stmts : Statements) (usernameConfig : UsernameConfig)
    (u p uuid : String)
    (hcp : c.credsProducer = newCouchbase.credsProducer)
    (hu : env.randomUUID = .ok uuid)
    (hok : (CreateUser env c stmts usernameConfig).1 = .ok (u, p)) :
    u.length ≤ 100 ∧
    (0 < usernameConfig.DisplayName.length →
      0 < usernameConfig.RoleName.length →
      u = strTake (((("v" ++ "_" ++ strTake usernameConfig.DisplayName 15)
            ++ "_" ++ strTake usernameConfig.RoleName 15) ++ "_" ++ uuid)
            ++ "_" ++ env.nowUnix) 100) := by
  have hu_eq : u = c.credsProducer.GenerateUsername uuid env.nowUnix usernameConfig := by
    rcases hcl : stmts.Creation with _ | ⟨s, rest⟩
    · simp [CreateUser, statementCompatibilityHelper, hcl] at hok
    · rcases hConn : Connection env c.connProducer with ⟨r, cp2, evs⟩
      cases r with
      | error e =>
        simp [CreateUser, statementCompatibilityHelper, hcl, hConn] at hok
      | ok cl =>
        rcases hpw : env.genPasswordRes with ep | pw2
        · simp [CreateUser, statementCompatibilityHelper, hcl, hConn, hu,
            hpw] at hok
        · simp only [CreateUser, statementCompatibilityHelper, hcl, hConn,
            hu, hpw] at hok
          exact (upsertUser_ok_inv env cp2.clusterManager s
            (c.credsProducer.GenerateUsername uuid env.nowUnix usernameConfig)
            pw2 u p hok).1
  constructor
  · rw [hu_eq, hcp]
    exact generateUsername_new_le uuid env.nowUnix usernameConfig
  · intro hd hrn
    rw [hu_eq, hcp]
    exact generateUsername_new_spec uuid env.nowUnix usernameConfig hd hrn

/-- Witness for C9 at a concrete successful `CreateUser`. -/
theorem CreateUser_username_bounded_witness :
    readyCouchbase.credsProducer = newCouchbase.credsProducer ∧
    freshEnv.randomUUID = .ok "" ∧
    (CreateUser freshEnv readyCouchbase ⟨[sampleStmt]⟩
        { DisplayName := "test-user", RoleName := "test-role" }).1 =
      .ok ("v_test-user_test-role__", "") ∧
    ("v_test-user_test-role__".length ≤ 100 ∧
     (0 < ("test-user" : String).length → 0 < ("test-role" : String).length →
       "v_test-user_test-role__" =
         strTake (((("v" ++ "_" ++ strTake "test-user" 15) ++ "_"
           ++ strTake "test-role" 15) ++ "_" ++ "") ++ "_" ++ freshEnv.nowUnix)
           100)) :=
  ⟨rfl, rfl, by decide,
   CreateUser_username_bounded freshEnv readyCouchbase ⟨[sampleStmt]⟩
     { DisplayName := "test-user", RoleName := "test-role" }
     "v_test-user_test-role__" "" "" rfl rfl (by decide)⟩

/-- Witness for the amended theorem of C1 at a concrete acquire with a cached
connection present. -/
theorem Connection_always_establishes_fresh_witness :
    liveProducer.Initialized = true ∧
    (Connection freshEnv liveProducer).1 = .ok { id := 2 } ∧
    (Event.connect liveProducer.ConnectionString ∈
       (Connection freshEnv liveProducer).2.2 ∧
     freshEnv.connectRes = .ok { id := 2 } ∧
     (Connection freshEnv liveProducer).2.1.cluster = some { id := 2 }) :=
  ⟨rfl, by decide,
   Connection_always_establishes_fresh freshEnv liveProducer { id := 2 }
     rfl (by decide)⟩

end CouchbasePlugin
